import Mathlib

set_option maxHeartbeats 4000000
set_option linter.unnecessarySeqFocus false

/-!
Shallow embedding of the replay data model of `rocket-league-replays`
(`src/rocket_league/apps/replays/models.py`), and verification of the
specification's claims about it.

Python dictionaries are embedded as association lists in source order
(all keys of the embedded dicts are distinct, so `List.find?` agrees with
Python dict lookup); a failed dict subscript (`KeyError`), a failed list
subscript (`IndexError`) and a failed `assert` are embedded as
`Except.error`.  Database-backed objects (Django `Component` rows, URL
reversing, `LeagueRating` queries) are abstracted to the pure data they
carry, which the claims are about.
-/

/-- Python values that occur as keys of the module-level `PLATFORMS_MAPPINGS`
dict (models.py:41-77): strings, ints and `None`. -/
inductive PyKey where
  | str (s : String)
  | int (n : Nat)
  | pynone
deriving DecidableEq

/-- Python values that occur as values of `PLATFORMS_MAPPINGS`: canonical
integer platform codes and API identifier strings. -/
inductive PyVal where
  | int (n : Nat)
  | str (s : String)
deriving DecidableEq

deriving instance DecidableEq for Except

/-- models.py:27 -/
def PLATFORM_UNKNOWN : Nat := 0
/-- models.py:28 -/
def PLATFORM_STEAM : Nat := 1
/-- models.py:29 -/
def PLATFORM_PSN : Nat := 2
/-- models.py:30 -/
def PLATFORM_XBOX : Nat := 4
/-- models.py:31 -/
def PLATFORM_SWITCH : Nat := 6

/-- The canonical platform enumeration `PLATFORMS` (models.py:33-39). -/
def PLATFORMS : List (String × Nat) :=
  [("Unknown", PLATFORM_UNKNOWN),
   ("Steam", PLATFORM_STEAM),
   ("PlayStation", PLATFORM_PSN),
   ("Xbox", PLATFORM_XBOX),
   ("Switch", PLATFORM_SWITCH)]

/-- A single ASCII apostrophe, used to spell the legacy serialized-dict-like
platform keys of `PLATFORMS_MAPPINGS` exactly as they appear in the source. -/
def pq : String := String.mk [Char.ofNat 39]

/-- The legacy serialized-dict-like platform key
`{'Value': ['OnlinePlatform', '<p>']}` (models.py:59-62), spelled with
explicit apostrophe and brace characters. -/
def legacyKey (p : String) : String :=
  "\x7b" ++ pq ++ "Value" ++ pq ++ ": [" ++ pq ++ "OnlinePlatform" ++ pq ++
    ", " ++ pq ++ p ++ pq ++ "]\x7d"

/-- The module-level platform lookup dict `PLATFORMS_MAPPINGS`
(models.py:41-77), in source order.  All keys are distinct. -/
def PLATFORMS_MAPPINGS : List (PyKey × PyVal) :=
  [(PyKey.str "unknown", PyVal.int PLATFORM_UNKNOWN),
   (PyKey.str "steam", PyVal.int PLATFORM_STEAM),
   (PyKey.str "Steam", PyVal.int PLATFORM_STEAM),
   (PyKey.str "PlayStation", PyVal.int PLATFORM_PSN),
   (PyKey.str "playstation", PyVal.int PLATFORM_PSN),
   (PyKey.str "ps4", PyVal.int PLATFORM_PSN),
   (PyKey.str "Xbox", PyVal.int PLATFORM_XBOX),
   (PyKey.str "xbox", PyVal.int PLATFORM_XBOX),
   (PyKey.str "xboxone", PyVal.int PLATFORM_XBOX),
   (PyKey.str "switch", PyVal.int PLATFORM_SWITCH),
   (PyKey.str "Switch", PyVal.int PLATFORM_SWITCH),
   (PyKey.str "OnlinePlatform_PS4", PyVal.int PLATFORM_PSN),
   (PyKey.str "OnlinePlatform_Unknown", PyVal.int PLATFORM_UNKNOWN),
   (PyKey.str "OnlinePlatform_Dingo", PyVal.int PLATFORM_XBOX),
   (PyKey.str "OnlinePlatform_Steam", PyVal.int PLATFORM_STEAM),
   (PyKey.str "OnlinePlatform_NNX", PyVal.int PLATFORM_SWITCH),
   (PyKey.str (legacyKey "OnlinePlatform_Steam"), PyVal.int PLATFORM_STEAM),
   (PyKey.str (legacyKey "OnlinePlatform_Dingo"), PyVal.int PLATFORM_XBOX),
   (PyKey.str (legacyKey "OnlinePlatform_PS4"), PyVal.int PLATFORM_PSN),
   (PyKey.str (legacyKey "OnlinePlatform_Unknown"), PyVal.int PLATFORM_UNKNOWN),
   (PyKey.int PLATFORM_UNKNOWN, PyVal.str "unknown"),
   (PyKey.str "0", PyVal.str "unknown"),
   (PyKey.int PLATFORM_STEAM, PyVal.str "steam"),
   (PyKey.str "1", PyVal.str "steam"),
   (PyKey.int PLATFORM_PSN, PyVal.str "ps4"),
   (PyKey.str "2", PyVal.str "ps4"),
   (PyKey.int PLATFORM_XBOX, PyVal.str "xboxone"),
   (PyKey.str "4", PyVal.str "xboxone"),
   (PyKey.int PLATFORM_SWITCH, PyVal.str "switch"),
   (PyKey.str "6", PyVal.str "switch"),
   (PyKey.pynone, PyVal.int PLATFORM_UNKNOWN)]

/-- Python dict subscript `PLATFORMS_MAPPINGS[k]` as a partial lookup:
`none` means the subscript raises `KeyError`. -/
def mappings_get (k : PyKey) : Option PyVal :=
  (PLATFORMS_MAPPINGS.find? (fun kv => kv.1 == k)).map (fun kv => kv.2)

/-- Lookup in the canonical `PLATFORMS` enumeration. -/
def platforms_get (s : String) : Option Nat :=
  (PLATFORMS.find? (fun kv => kv.1 == s)).map (fun kv => kv.2)

/-- The `online_id` argument computed by `Player.get_rating_data`
(models.py:741): `self.online_id if PLATFORMS_MAPPINGS[self.platform] ==
PLATFORM_STEAM else self.player_name`.  The dict subscript is unguarded: a
platform absent from the table raises `KeyError` (the surrounding `try`
only catches `LeagueRating.DoesNotExist`). -/
def get_rating_data_online_id (platform : PyKey) (online_id player_name : String) :
    Except String String :=
  match mappings_get platform with
  | Option.none => Except.error "KeyError"
  | Option.some v =>
      Except.ok (if v = PyVal.int PLATFORM_STEAM then online_id else player_name)

/-- Python `int(s)` on a string: optional sign followed by at least one
digit, else `ValueError` (`none`). -/
def py_int_of_string (s : String) : Option Int :=
  match s.data with
  | [] => Option.none
  | c :: rest =>
      if c = '-' then
        if rest ≠ [] ∧ rest.all Char.isDigit then
          Option.some (-(String.mk rest).toNat!)
        else Option.none
      else if c = '+' then
        if rest ≠ [] ∧ rest.all Char.isDigit then
          Option.some ((String.mk rest).toNat! : Int)
        else Option.none
      else if (c :: rest).all Char.isDigit then
        Option.some ((String.mk (c :: rest)).toNat! : Int)
      else Option.none

/-- The `users:player` URL for a normalized platform value and player id;
Django `reverse` is outside src/, abstracted to a plain formatter keeping
exactly the data passed as kwargs (models.py:861-864). -/
def users_player_url (platform : PyVal) (player_id : String) : String :=
  "/players/" ++ (match platform with
    | PyVal.int n => toString n
    | PyVal.str s => s) ++ "/" ++ player_id ++ "/"

/-- `Player.get_absolute_url` (models.py:856-866).  `platform = none` embeds
`self.platform is None`.  Inside the `try`, the dict literal evaluates the
`platform` kwarg first (`PLATFORMS_MAPPINGS[self.platform]`, `KeyError` if
absent), then `int(self.platform)` (`ValueError` if non-numeric); any
exception is caught and `'#2'` returned. -/
def player_get_absolute_url (bot : Bool) (platform : Option String)
    (online_id player_name : String) : String :=
  match platform with
  | Option.none => "#1"
  | Option.some p =>
      if bot || p == "0" || p == "" then "#1"
      else
        match mappings_get (PyKey.str p) with
        | Option.none => "#2"
        | Option.some v =>
            match py_int_of_string p with
            | Option.none => "#2"
            | Option.some n =>
                users_player_url v
                  (if n = (PLATFORM_STEAM : Int) then online_id else player_name)

/-- C2 counterexample: the table sends the string
`"OnlinePlatform_Steam"` to the canonical Steam value `1`, but the numeric
code `1` to the API string `'steam'` — not to the canonical Steam value, so
the two lookups do not yield the same canonical platform value. -/
theorem steam_numeric_code_not_canonical :
    mappings_get (PyKey.str "OnlinePlatform_Steam") = Option.some (PyVal.int PLATFORM_STEAM) ∧
    mappings_get (PyKey.int 1) ≠ Option.some (PyVal.int PLATFORM_STEAM) := by
  decide

/-- C2 (amended): `"OnlinePlatform_Steam"` normalizes to canonical Steam = 1
in one lookup; the numeric code `1` (and its string form `"1"`) map to the
API identifier `'steam'`, which itself maps to canonical Steam = 1, so the
numeric code reaches the canonical Steam value only via a second lookup. -/
theorem steam_platform_normalization :
    mappings_get (PyKey.str "OnlinePlatform_Steam") = Option.some (PyVal.int 1) ∧
    mappings_get (PyKey.int 1) = Option.some (PyVal.str "steam") ∧
    mappings_get (PyKey.str "1") = Option.some (PyVal.str "steam") ∧
    mappings_get (PyKey.str "steam") = Option.some (PyVal.int 1) := by
  decide

/-- C3: the canonical platform enumeration assigns exactly Unknown=0,
Steam=1, PlayStation=2, Xbox=4, Switch=6 (and nothing else), and every
entry of `PLATFORMS_MAPPINGS` that targets a canonical (integer) value
targets one of these five values. -/
theorem canonical_platform_enumeration :
    PLATFORMS.length = 5 ∧
    platforms_get "Unknown" = Option.some 0 ∧
    platforms_get "Steam" = Option.some 1 ∧
    platforms_get "PlayStation" = Option.some 2 ∧
    platforms_get "Xbox" = Option.some 4 ∧
    platforms_get "Switch" = Option.some 6 ∧
    (∀ kv ∈ PLATFORMS_MAPPINGS, ∀ n, kv.2 = PyVal.int n →
      (n = 0 ∨ n = 1 ∨ n = 2 ∨ n = 4 ∨ n = 6)) := by
  refine ⟨by decide, by decide, by decide, by decide, by decide, by decide, ?_⟩
  intro kv hkv n hn
  fin_cases hkv <;> cases hn <;> decide

/-- C1 counterexample: the platform string `"OnlinePlatform_Epic"` is not a
key of the lookup table; far from mapping to Unknown, the table yields no
value for it, and the unguarded subscript in `Player.get_rating_data`
raises `KeyError` during player-record processing. -/
theorem unrecognized_platform_lookup_fails :
    mappings_get (PyKey.str "OnlinePlatform_Epic") = Option.none ∧
    get_rating_data_online_id (PyKey.str "OnlinePlatform_Epic")
      "76561198000000000" "Alice" = Except.error "KeyError" := by
  decide

/-- C1 (amended): the lookup table has no default for unrecognized strings:
any platform string absent from the table makes the `get_rating_data`
subscript raise `KeyError`; `get_absolute_url` catches the failure and
returns the fallback `'#2'` (not Unknown); only `None` and the explicitly
listed spellings map to Unknown = 0. -/
theorem unrecognized_platform_keyerror (s online_id player_name : String)
    (hk : mappings_get (PyKey.str s) = Option.none) (hne : s ≠ "") :
    get_rating_data_online_id (PyKey.str s) online_id player_name =
      Except.error "KeyError" ∧
    player_get_absolute_url false (Option.some s) online_id player_name = "#2" ∧
    mappings_get PyKey.pynone = Option.some (PyVal.int PLATFORM_UNKNOWN) := by
  refine ⟨?_, ?_, by decide⟩
  · unfold get_rating_data_online_id
    rw [hk]
  · have hs0 : s ≠ "0" := by
      intro h
      subst h
      exact absurd hk (by decide)
    unfold player_get_absolute_url
    simp only [Bool.false_or]
    rw [if_neg, hk]
    simp [hs0, hne]

/-- Witness for `unrecognized_platform_keyerror` at the concrete
unrecognized platform string `"OnlinePlatform_Epic"`. -/
theorem unrecognized_platform_keyerror_witness :
    get_rating_data_online_id (PyKey.str "OnlinePlatform_Epic")
      "76561198000000001" "Bob" = Except.error "KeyError" ∧
    player_get_absolute_url false (Option.some "OnlinePlatform_Epic")
      "76561198000000001" "Bob" = "#2" ∧
    mappings_get PyKey.pynone = Option.some (PyVal.int PLATFORM_UNKNOWN) :=
  unrecognized_platform_keyerror "OnlinePlatform_Epic" "76561198000000001" "Bob"
    (by decide) (by decide)

/-- The player data a `Goal` row references through its `player` foreign key
(models.py:618-629): the scoring player's name and team. -/
structure PlayerRec where
  player_name : String
  team : Int
deriving DecidableEq

/-- A `Goal` row (models.py:878-896): goal number, scoring player, and the
(nullable) frame index at which it occurred. -/
structure Goal where
  number : Nat
  player : PlayerRec
  frame : Option Int
deriving DecidableEq

/-- `ORDER BY frame` comparison on the nullable `frame` column (rows with a
missing frame collate before rows with one). -/
def opt_le (a b : Option Int) : Prop :=
  match a, b with
  | Option.none, _ => True
  | Option.some _, Option.none => False
  | Option.some x, Option.some y => x ≤ y

instance opt_le_dec : DecidableRel opt_le := fun a b =>
  match a, b with
  | Option.none, _ => isTrue True.intro
  | Option.some _, Option.none => isFalse (fun h => h)
  | Option.some x, Option.some y => inferInstanceAs (Decidable (x ≤ y))

/-- The comparison underlying `Goal.Meta.ordering = ['frame']`
(models.py:921-922). -/
def frame_le (g h : Goal) : Prop := opt_le g.frame h.frame

instance frame_le_dec : DecidableRel frame_le := fun g h =>
  opt_le_dec g.frame h.frame

instance : IsTotal Goal frame_le :=
  ⟨fun g h => by
    unfold frame_le
    rcases g.frame with _ | a <;> rcases h.frame with _ | b <;>
      simp [opt_le] <;> exact Int.le_total a b⟩

instance : IsTrans Goal frame_le :=
  ⟨fun g h k => by
    unfold frame_le
    rcases g.frame with _ | a <;> rcases h.frame with _ | b <;>
      rcases k.frame with _ | c <;> simp [opt_le] <;> omega⟩

/-- The goal sequence of a replay as the ORM returns it: `goal_set` under
the model's default ordering `['frame']` (models.py:921-922). -/
def goal_set_ordered (goals : List Goal) : List Goal :=
  List.insertionSort frame_le goals

/-- C6: the ordered goal sequence of a replay is a permutation of the
stored goals — each event still carries its frame index and its scoring
player — and it is ordered by frame index: any two goals with recorded
frames appear in non-decreasing frame order. -/
theorem goal_events_ordered_by_frame (goals : List Goal) :
    List.Perm (goal_set_ordered goals) goals ∧
    List.Pairwise
      (fun g h => ∀ a b, g.frame = Option.some a → h.frame = Option.some b → a ≤ b)
      (goal_set_ordered goals) := by
  constructor
  · exact List.perm_insertionSort frame_le goals
  · refine (List.sorted_insertionSort frame_le goals).imp ?_
    intro g h hle a b ha hb
    unfold frame_le at hle
    rw [ha, hb] at hle
    exact hle

/-- Python `'%02d' % n`: zero-pad to width 2. -/
def pad2 (n : Int) : String :=
  if 0 ≤ n ∧ n < 10 then "0" ++ toString n else toString n

/-- The `'%d:%02d' % (int(minutes), int(seconds))` formatting shared by
`Goal.goal_time` (models.py:903-908) and `Replay.match_length`
(models.py:377-382), with `minutes, seconds = divmod(calculation, 60)`:
`minutes = ⌊q/60⌋` and `seconds = ⌊q⌋ - 60⌊q/60⌋` (Python `divmod` floors,
and `int()` truncation of the nonnegative remainder is its floor). -/
def format_min_sec (q : ℚ) : String :=
  toString (⌊q / 60⌋ : Int) ++ ":" ++ pad2 (⌊q⌋ - 60 * ⌊q / 60⌋)

/-- `Goal.goal_time` (models.py:898-908).  `not self.frame` is true for a
missing frame or frame 0; `not self.replay.record_fps` for a missing or
zero FPS.  Otherwise `self.frame / self.replay.record_fps` is formatted. -/
def goal_time (frame : Option Int) (record_fps : Option ℚ) : String :=
  match frame, record_fps with
  | Option.none, _ => "N/A"
  | _, Option.none => "N/A"
  | Option.some f, Option.some r =>
      if f = 0 ∨ r = 0 then "N/A"
      else format_min_sec ((f : ℚ) / r)

/-- C8: `goal_time` returns `'N/A'` whenever the frame is 0 or missing or
the recording FPS is 0 or missing; otherwise it returns frame divided by
FPS formatted as minutes and zero-padded seconds; in particular a goal at
frame 0 with a valid FPS reports `'N/A'`, not `'0:00'`. -/
theorem goal_time_na_guard (frame : Option Int) (fps : Option ℚ) :
    ((frame = Option.none ∨ frame = Option.some 0 ∨
      fps = Option.none ∨ fps = Option.some 0) → goal_time frame fps = "N/A") ∧
    (∀ f r, frame = Option.some f → fps = Option.some r → f ≠ 0 → r ≠ 0 →
      goal_time frame fps = format_min_sec ((f : ℚ) / r)) ∧
    goal_time (Option.some 0) (Option.some 30) = "N/A" ∧
    "N/A" ≠ "0:00" := by
  refine ⟨?_, ?_, by decide, by decide⟩
  · intro h
    rcases frame with _ | f <;> rcases fps with _ | r
    · rfl
    · rfl
    · rfl
    · have hfr : f = 0 ∨ r = 0 := by simpa using h
      simp [goal_time, hfr]
  · rintro f r rfl rfl hf hr
    simp [goal_time, hf, hr]

/-- Witness for `goal_time_na_guard`: a goal at frame 300 of a 30 FPS
replay is reported at `'0:10'`, and a goal with no frame as `'N/A'`. -/
theorem goal_time_na_guard_witness :
    goal_time (Option.some 300) (Option.some 30) = "0:10" ∧
    goal_time Option.none Option.none = "N/A" := by
  have h := (goal_time_na_guard (Option.some 300) (Option.some 30)).2.1 300 30
    rfl rfl (by decide) (by norm_num)
  refine ⟨h.trans ?_, (goal_time_na_guard Option.none Option.none).1 (Or.inl rfl)⟩
  have h10 : ((300 : Int) : ℚ) / 30 = 10 := by norm_num
  rw [h10]
  unfold format_min_sec pad2
  norm_num
  decide

/-- A `BoostData` row (models.py:1005-1024): replay and player foreign keys
(abstracted to plain identifiers), the frame, and the boost value. -/
structure BoostData where
  replay : Nat
  player : Nat
  frame : Nat
  value : Nat
deriving DecidableEq

/-- The field validators of `BoostData.value` (models.py:1018-1020):
`MinValueValidator(0)` and `MaxValueValidator(255)` on a
PositiveIntegerField (so the value is a natural number). -/
def boost_value_valid (v : Nat) : Bool :=
  decide (0 ≤ v) && decide (v ≤ 255)

/-- Django model validation of a `BoostData` row: it is accepted unchanged
when its value passes both validators, else rejected. -/
def boostdata_full_clean (b : BoostData) : Except String BoostData :=
  if boost_value_valid b.value then Except.ok b else Except.error "ValidationError"

/-- C5: a boost record passes validation exactly when its value lies in
0..255, and validation preserves the record (hence the bound) — every
validated boost value is a byte. -/
theorem boost_value_is_byte (b : BoostData) :
    (boostdata_full_clean b = Except.ok b ↔ 0 ≤ b.value ∧ b.value ≤ 255) ∧
    (∀ r, boostdata_full_clean b = Except.ok r → r = b ∧ 0 ≤ r.value ∧ r.value ≤ 255) := by
  unfold boostdata_full_clean boost_value_valid
  constructor
  · constructor
    · intro h
      by_cases hv : b.value ≤ 255
      · exact ⟨Nat.zero_le _, hv⟩
      · simp [hv] at h
    · intro hv
      simp [hv.2]
  · intro r h
    by_cases hv : b.value ≤ 255
    · simp [hv] at h
      exact ⟨h.symm, Nat.zero_le _, h ▸ hv⟩
    · simp [hv] at h

/-- Witness for `boost_value_is_byte` at a concrete boost record with the
maximal byte value 255. -/
theorem boost_value_is_byte_witness :
    boostdata_full_clean ⟨1, 2, 10, 255⟩ = Except.ok ⟨1, 2, 10, 255⟩ :=
  (boost_value_is_byte ⟨1, 2, 10, 255⟩).1.mpr (by decide)

/-- The per-goal team sequence fed to the swing computation: `for goal in
self.goal_set.all()` iterates the goals in the model's default `['frame']`
ordering, and `goal.player.team` is read for each (models.py:393-394). -/
def swing_teams (goals : List Goal) : List Int :=
  (goal_set_ordered goals).map (fun g => g.player.team)

/-- The running swing (models.py:390-399): starting from 0, each team-0
goal decrements the swing and any other goal increments it; every
intermediate value is recorded. -/
def swing_list (swing : Int) : List Int → List Int
  | [] => []
  | t :: rest =>
      let s := if t = 0 then swing - 1 else swing + 1
      s :: swing_list s rest

def swing_values (teams : List Int) : List Int := swing_list 0 teams

/-- The `deficit` computation (models.py:401-420): both branches filter the
swing values for negatives; the team-0-winner branch takes
`max(swing_values)` when the filter is non-empty, the other branch
`abs(min(deficit_values))`. -/
def cef_deficit (sv : List Int) (team_0_score team_1_score : Int) : Int :=
  let deficit_values := sv.filter (fun x => x < 0)
  if team_0_score > team_1_score then
    if deficit_values ≠ [] then (sv.max?).getD 0 else 0
  else
    if deficit_values ≠ [] then |(deficit_values.min?).getD 0| else 0

/-- `score_min_def` (models.py:410,420). -/
def cef_score_min_def (team_0_score team_1_score d : Int) : Int :=
  if team_0_score > team_1_score then team_0_score - d else team_1_score - d

/-- `swing_rating` before the goal-count term (models.py:422-425), with
`swing_rating_multiplier = 8`. -/
def cef_swing_rating (d smd : Int) : ℚ :=
  if smd ≠ 0 then (d : ℚ) / (smd : ℚ) * 8 else 0

/-- `total_goals`, capped at 5 (models.py:431-433). -/
def cef_total_goals (team_0_score team_1_score : Int) : Int :=
  if team_0_score + team_1_score > 5 then 5 else team_0_score + team_1_score

/-- `Replay.calculate_excitement_factor` (models.py:384-437), with
`goal_count_multiplier = 1.2 = 6/5`. -/
def calculate_excitement_factor (goals : List Goal) (team_0_score team_1_score : Int) : ℚ :=
  let d := cef_deficit (swing_values (swing_teams goals)) team_0_score team_1_score
  cef_swing_rating d (cef_score_min_def team_0_score team_1_score d) +
    (cef_total_goals team_0_score team_1_score : ℚ) * (6 / 5)

/-- A 3-0 replay won by team 0 with three team-0 goals, used to refute C9. -/
def c9_goals : List Goal :=
  [⟨1, ⟨"A", 0⟩, Option.some 10⟩, ⟨2, ⟨"A", 0⟩, Option.some 20⟩,
   ⟨3, ⟨"A", 0⟩, Option.some 30⟩]

/-- C9 counterexample: in the 3-0 replay `c9_goals` the winning team 0 is
never behind (every running swing value is ≤ 0, i.e. never moves against
the winner), yet the excitement factor is 8/5, not
`min(team_0_score + team_1_score, 5) * 1.2 = 18/5`: the team-0-winner
branch filters for swing values *in the winner's favour* (`x < 0`), finds
some, and adds a non-zero swing term `max(swing_values)/(score-deficit)*8`. -/
theorem excitement_factor_never_behind_fails :
    (∀ v ∈ swing_values (swing_teams c9_goals), v ≤ 0) ∧
    calculate_excitement_factor c9_goals 3 0 = 8 / 5 ∧
    (8 / 5 : ℚ) ≠ ((min ((3 : Int) + 0) 5 : Int) : ℚ) * (6 / 5) := by
  have hsv : swing_values (swing_teams c9_goals) = [-1, -2, -3] := by decide
  refine ⟨by rw [hsv]; decide, ?_, ?_⟩
  · have hd : cef_deficit (swing_values (swing_teams c9_goals)) 3 0 = -1 := by decide
    unfold calculate_excitement_factor
    rw [hd]
    show cef_swing_rating (-1) (cef_score_min_def 3 0 (-1)) +
      ((cef_total_goals 3 0 : Int) : ℚ) * (6 / 5) = 8 / 5
    norm_num [cef_swing_rating, cef_score_min_def, cef_total_goals]
  · norm_num

/-- C9 (amended): when team 1 is the non-losing team and the running swing
never goes negative (team 1 never behind), the deficit filter is empty, the
swing term is 0, and the excitement factor is exactly
`min(team_0_score + team_1_score, 5) * 1.2`.  (For a team-0 winner the
code's deficit filter tests for values in the winner's favour, so the
equality can fail even though the winner was never behind.) -/
theorem excitement_factor_no_deficit (goals : List Goal) (s0 s1 : Int)
    (hle : s0 ≤ s1)
    (hnb : ∀ v ∈ swing_values (swing_teams goals), 0 ≤ v) :
    calculate_excitement_factor goals s0 s1 = ((min (s0 + s1) 5 : Int) : ℚ) * (6 / 5) := by
  have hfil : (swing_values (swing_teams goals)).filter (fun x => x < 0) = [] := by
    rw [List.filter_eq_nil_iff]
    intro v hv
    have := hnb v hv
    simp
    omega
  have hng : ¬ s0 > s1 := by omega
  have hd : cef_deficit (swing_values (swing_teams goals)) s0 s1 = 0 := by
    unfold cef_deficit
    rw [if_neg hng]
    simp [hfil]
  rw [calculate_excitement_factor, hd]
  have hsr : cef_swing_rating 0 (cef_score_min_def s0 s1 0) = 0 := by
    unfold cef_swing_rating
    split
    · norm_num
    · rfl
  have htg : cef_total_goals s0 s1 = min (s0 + s1) 5 := by
    unfold cef_total_goals
    rw [min_def]
    split <;> split <;> omega
  rw [hsr, htg]
  ring

/-- Witness for `excitement_factor_no_deficit`: a 0-2 replay with two
team-1 goals has excitement factor `min(2,5) * 1.2 = 12/5`. -/
theorem excitement_factor_no_deficit_witness :
    calculate_excitement_factor
      [⟨1, ⟨"B", 1⟩, Option.some 5⟩, ⟨2, ⟨"B", 1⟩, Option.some 15⟩] 0 2 =
      ((min ((0 : Int) + 2) 5 : Int) : ℚ) * (6 / 5) :=
  excitement_factor_no_deficit
    [⟨1, ⟨"B", 1⟩, Option.some 5⟩, ⟨2, ⟨"B", 1⟩, Option.some 15⟩] 0 2
    (by decide) (by decide)

/-- One value of the dict-shaped `vehicle_loadout` JSON (models.py:765-776):
the component's `Name` (possibly `null`) and `Id`. -/
structure LoadoutItem where
  name : Option String
  id : Int
deriving DecidableEq

/-- The stored `Player.vehicle_loadout` JSON value (models.py:713-716):
absent/null, the list-shaped legacy format, or the dict-shaped newer
format keyed by component names. -/
inductive VehicleLoadout where
  | pynone
  | list (xs : List Int)
  | dict (entries : List (String × LoadoutItem))
deriving DecidableEq

/-- `component_maps` of the list branch (models.py:802-809): the component
type read at each list position, in order. -/
def component_maps_list : List String :=
  ["body", "decal", "wheels", "trail", "antenna", "topper"]

/-- The list-branch loop of `Player.vehicle_data` (models.py:811-825): each
positive value at index `i` becomes a component of type
`component_maps[i]`; a positive value at an index past the 6 names raises
`IndexError`.  The `Component` database get-or-create is abstracted to the
`(type, internal_id)` pair it stores. -/
def list_components (names : List String) : List Int → Except String (List (String × Int))
  | [] => Except.ok []
  | c :: rest =>
      if 0 < c then
        match names with
        | ty :: ntail =>
            match list_components ntail rest with
            | Except.ok l => Except.ok ((ty, c) :: l)
            | Except.error e => Except.error e
        | [] => Except.error "IndexError"
      else
        match names with
        | _ :: ntail => list_components ntail rest
        | [] => list_components [] rest

/-- `component_maps` of the dict branch (models.py:828-835): JSON key to
component type, in the dict's insertion (= iteration) order.  The `replace`
prefixes only normalize the stored display name of the database-backed
`Component` row, which is abstracted away. -/
def component_maps_dict : List (String × String) :=
  [("Body", "body"), ("Decal", "decal"), ("Wheels", "wheels"),
   ("RocketTrail", "trail"), ("Antenna", "antenna"), ("Topper", "topper")]

/-- Python truthiness of the `Name` field: `None` and `''` are falsy. -/
def truthy_name : Option String → Bool
  | Option.none => false
  | Option.some s => s ≠ ""

/-- One iteration of the dict-branch loop (models.py:837-852): the
component is produced when the key is present and its `Name` is truthy. -/
def dict_component_entry (entries : List (String × LoadoutItem)) (km : String × String) :
    Option (String × Int) :=
  match entries.find? (fun e => e.1 == km.1) with
  | Option.some e =>
      if truthy_name e.2.name then Option.some (km.2, e.2.id) else Option.none
  | Option.none => Option.none

/-- The dict branch of `Player.vehicle_data` (models.py:827-852). -/
def dict_components (entries : List (String × LoadoutItem)) : List (String × Int) :=
  component_maps_dict.filterMap (dict_component_entry entries)

/-- `Player.vehicle_data` (models.py:763-854): empty/absent loadout gives
no components; a list-shaped loadout of length 9 is first trimmed to its
middle 7 (`[1:-1]`), a length other than 7 then fails the `assert`, and
the 7 positions are read through `component_maps_list`; a dict-shaped
loadout is read through keyed lookups. -/
def vehicle_data : VehicleLoadout → Except String (List (String × Int))
  | VehicleLoadout.pynone => Except.ok []
  | VehicleLoadout.list xs =>
      if xs = [] then Except.ok []
      else if xs.length = 9 then
        (if ((xs.drop 1).dropLast).length = 7 then
          list_components component_maps_list ((xs.drop 1).dropLast)
        else Except.error "AssertionError")
      else if xs.length = 7 then list_components component_maps_list xs
      else Except.error "AssertionError"
  | VehicleLoadout.dict entries =>
      if entries = [] then Except.ok []
      else Except.ok (dict_components entries)

theorem filterMap_cons_toList {α β : Type} (f : α → Option β) (a : α) (l : List α) :
    List.filterMap f (a :: l) = (f a).toList ++ List.filterMap f l := by
  cases h : f a <;> simp [List.filterMap_cons, h]

/-- C4: the loadout-to-components projection distinguishes exactly the two
historical shapes at projection time — an empty or absent loadout yields no
components; a 9-element legacy list is first trimmed to its middle 7
elements and then handled exactly like a 7-element list; the 7 list
positions are read in the order body, decal, wheels, trail, antenna,
topper (the unnamed 7th position contributes nothing when non-positive);
and a dict-shaped loadout is read by component-name key lookups. -/
theorem vehicle_loadout_two_shapes :
    (vehicle_data VehicleLoadout.pynone = Except.ok [] ∧
     vehicle_data (VehicleLoadout.list []) = Except.ok [] ∧
     vehicle_data (VehicleLoadout.dict []) = Except.ok []) ∧
    (∀ xs : List Int, xs.length = 9 →
      vehicle_data (VehicleLoadout.list xs) =
        vehicle_data (VehicleLoadout.list ((xs.drop 1).dropLast))) ∧
    (∀ b d w t a tp x : Int, x ≤ 0 →
      vehicle_data (VehicleLoadout.list [b, d, w, t, a, tp, x]) =
        Except.ok ((if 0 < b then [("body", b)] else []) ++
          (if 0 < d then [("decal", d)] else []) ++
          (if 0 < w then [("wheels", w)] else []) ++
          (if 0 < t then [("trail", t)] else []) ++
          (if 0 < a then [("antenna", a)] else []) ++
          (if 0 < tp then [("topper", tp)] else []))) ∧
    (∀ entries : List (String × LoadoutItem), entries ≠ [] →
      vehicle_data (VehicleLoadout.dict entries) =
        Except.ok ((dict_component_entry entries ("Body", "body")).toList ++
          (dict_component_entry entries ("Decal", "decal")).toList ++
          (dict_component_entry entries ("Wheels", "wheels")).toList ++
          (dict_component_entry entries ("RocketTrail", "trail")).toList ++
          (dict_component_entry entries ("Antenna", "antenna")).toList ++
          (dict_component_entry entries ("Topper", "topper")).toList)) := by
  refine ⟨⟨rfl, rfl, rfl⟩, ?_, ?_, ?_⟩
  · intro xs h9
    have hne : xs ≠ [] := by
      intro h
      rw [h] at h9
      simp at h9
    have hlen : ((xs.drop 1).dropLast).length = 7 := by
      simp [List.length_dropLast, List.length_drop, h9]
    have hne2 : (xs.drop 1).dropLast ≠ [] := by
      intro h
      rw [h] at hlen
      simp at hlen
    have h9' : ¬ ((xs.drop 1).dropLast).length = 9 := by omega
    simp only [vehicle_data]
    simp only [List.drop_one] at hlen hne2 h9'
    simp [hne, h9, hlen, hne2, h9']
  · intro b d w t a tp x hx
    have hne : ([b, d, w, t, a, tp, x] : List Int) ≠ [] := by simp
    have h9 : ¬ ([b, d, w, t, a, tp, x] : List Int).length = 9 := by simp
    have h7 : ([b, d, w, t, a, tp, x] : List Int).length = 7 := by simp
    simp only [vehicle_data]
    rw [if_neg hne, if_neg h9, if_pos h7]
    simp only [component_maps_list, list_components]
    split_ifs <;> first | omega | simp_all
  · intro entries hne
    simp only [vehicle_data]
    rw [if_neg hne]
    unfold dict_components component_maps_dict
    simp only [filterMap_cons_toList, List.filterMap_nil, List.append_nil,
      List.append_assoc]

/-- Witness for `vehicle_loadout_two_shapes` on concrete loadouts: a
9-element legacy list is projected like its middle 7; the example list
loadout of models.py:786-795 yields its positive components in order; a
one-key dict loadout yields the keyed component. -/
theorem vehicle_loadout_two_shapes_witness :
    vehicle_data (VehicleLoadout.list [1, 2, 3, 4, 5, 6, 7, 8, 9]) =
      vehicle_data (VehicleLoadout.list [2, 3, 4, 5, 6, 7, 8]) ∧
    vehicle_data (VehicleLoadout.list [403, 0, 376, 63, 0, 0, 0]) =
      Except.ok [("body", 403), ("wheels", 376), ("trail", 63)] ∧
    vehicle_data (VehicleLoadout.dict [("Body", ⟨Option.some "Body_Force", 22⟩)]) =
      Except.ok [("body", 22)] := by
  refine ⟨?_, ?_, ?_⟩
  · exact vehicle_loadout_two_shapes.2.1 [1, 2, 3, 4, 5, 6, 7, 8, 9] (by decide)
  · exact (vehicle_loadout_two_shapes.2.2.1 403 0 376 63 0 0 0 (by decide)).trans
      (by decide)
  · exact (vehicle_loadout_two_shapes.2.2.2
      [("Body", ⟨Option.some "Body_Force", 22⟩)] (by decide)).trans (by decide)

/-- The regex character class `[A-F0-9]` of `Replay.uuid` (models.py:317):
uppercase hex letters and digits. -/
def hexUC (c : Char) : Bool :=
  ('A' ≤ c && c ≤ 'F') || ('0' ≤ c && c ≤ '9')

/-- The replacement template `\1-\2-\3-\4-\5` applied to a 32-character
match: the groups of 8, 4, 4, 4 and 12 characters joined by dashes. -/
def dashedForm (cs : List Char) : List Char :=
  cs.take 8 ++ '-' :: ((cs.drop 8).take 4) ++ '-' :: ((cs.drop 12).take 4) ++
    '-' :: ((cs.drop 16).take 4) ++ '-' :: ((cs.drop 20).take 12)

/-- Whether the regex `([A-F0-9]{8})([A-F0-9]{4})([A-F0-9]{4})([A-F0-9]{4})
([A-F0-9]{12})` matches at the current position: the next 32 characters
exist and are all in the class. -/
def run32At (cs : List Char) : Bool :=
  decide (32 ≤ cs.length) && (cs.take 32).all hexUC

/-- `re.sub` left-to-right scan with explicit fuel (the fuel is always at
least the list length, so it never runs out): at each position, a matching
32-character run is replaced by its dashed form and the scan resumes after
it; otherwise the character is kept and the scan moves on. -/
def subUuidF : Nat → List Char → List Char
  | 0, cs => cs
  | Nat.succ fuel, cs =>
      if run32At cs then dashedForm (cs.take 32) ++ subUuidF fuel (cs.drop 32)
      else
        match cs with
        | [] => []
        | c :: rest => c :: subUuidF fuel rest

def subUuid (cs : List Char) : List Char := subUuidF cs.length cs

/-- Whether any position of the string starts a 32-character `[A-F0-9]`
run, i.e. whether the `re.sub` pattern matches anywhere. -/
def hasRun32 : List Char → Bool
  | [] => false
  | c :: rest => run32At (c :: rest) || hasRun32 rest

/-- Python `str.lower()` (ASCII range, which covers the hex ids and URL
fragments involved). -/
def pyLower (s : String) : String := String.mk (s.data.map Char.toLower)

/-- `Replay.uuid` (models.py:315-317): `re.sub(...)` over the stored
replay id, then `.lower()`. -/
def uuid (s : String) : String := pyLower (String.mk (subUuid s.data))

theorem subUuidF_nil (n : Nat) : subUuidF n [] = [] := by
  cases n <;> rfl

theorem subUuidF_succ_run (fuel : Nat) (cs : List Char) (h : run32At cs = true) :
    subUuidF (fuel + 1) cs = dashedForm (cs.take 32) ++ subUuidF fuel (cs.drop 32) := by
  simp only [subUuidF, h, if_true]

theorem subUuidF_no_run :
    ∀ (fuel : Nat) (cs : List Char), cs.length ≤ fuel → hasRun32 cs = false →
      subUuidF fuel cs = cs := by
  intro fuel
  induction fuel with
  | zero =>
      intro cs hlen _
      rfl
  | succ n ih =>
      intro cs hlen hrun
      cases cs with
      | nil => exact subUuidF_nil _
      | cons c rest =>
          have hsplit : run32At (c :: rest) = false ∧ hasRun32 rest = false := by
            have : (run32At (c :: rest) || hasRun32 rest) = false := hrun
            exact Bool.or_eq_false_iff.mp this
          simp only [subUuidF, hsplit.1, Bool.false_eq_true, if_false]
          have hlen' : rest.length ≤ n := by
            simp only [List.length_cons] at hlen
            omega
          rw [ih rest hlen' hsplit.2]

/-- C10 (amended): a stored replay id that is exactly a 32-character
uppercase-hex string is rewritten into the dashed 8-4-4-4-12 UUID form and
lowercased; an id in which no position starts a 32-character uppercase-hex
run is returned lowercased but otherwise unchanged.  (An id that is not of
the 32-character shape but *contains* such a run still gets dashes
inserted, which is what refutes the claim as stated.) -/
theorem uuid_shapes (s : String) :
    (s.data.length = 32 → (∀ c ∈ s.data, hexUC c) →
      uuid s = pyLower (String.mk (dashedForm s.data))) ∧
    (hasRun32 s.data = false → uuid s = pyLower s) := by
  constructor
  · intro h32 hhex
    have htake : s.data.take 32 = s.data := List.take_of_length_le (by omega)
    have hdrop : s.data.drop 32 = [] := List.drop_eq_nil_of_le (by omega)
    have hrun : run32At s.data = true := by
      unfold run32At
      rw [htake]
      simp only [h32, List.all_eq_true]
      simpa using hhex
    unfold uuid subUuid
    rw [h32, show (32 : Nat) = 31 + 1 from rfl, subUuidF_succ_run 31 s.data hrun,
      htake, hdrop, subUuidF_nil, List.append_nil]
  · intro hrun
    unfold uuid subUuid
    rw [subUuidF_no_run s.data.length s.data (Nat.le_refl _) hrun]

/-- C10 counterexample: a 33-character run of `'A'` is not of the
32-character shape, yet the accessor does not return it merely lowercased:
the `re.sub` scan finds a 32-character run at position 0 and inserts
dashes, leaving the 33rd character appended. -/
theorem uuid_long_id_not_unchanged :
    ¬ (String.mk (List.replicate 33 'A')).data.length = 32 ∧
    uuid (String.mk (List.replicate 33 'A')) ≠ pyLower (String.mk (List.replicate 33 'A')) ∧
    uuid (String.mk (List.replicate 33 'A')) = "aaaaaaaa-aaaa-aaaa-aaaa-aaaaaaaaaaaaa" := by
  refine ⟨by decide, by decide, by decide⟩

/-- Witness for `uuid_shapes`: a concrete 32-character uppercase-hex id is
rewritten to the dashed lowercase UUID, and an id with no 32-character hex
run is only lowercased. -/
theorem uuid_shapes_witness :
    uuid "00112233445566778899AABBCCDDEEFF" = "00112233-4455-6677-8899-aabbccddeeff" ∧
    uuid "Hello-World" = "hello-world" := by
  constructor
  · exact ((uuid_shapes "00112233445566778899AABBCCDDEEFF").1 (by decide) (by decide)).trans
      (by decide)
  · exact ((uuid_shapes "Hello-World").2 (by decide)).trans (by decide)

/-- Modelled from the spec: the binary replay decoder itself
(`rocket_league.apps.replays.parser` and the `pyrope` library, imported at
models.py:16-19) is not under src/.  Spec section 4.1: a BitReader wraps an
immutable buffer (here a list of bits) and a cursor that only advances. -/
structure BitReader where
  buf : List Bool
  pos : Nat
deriving DecidableEq

/-- Modelled from the spec: `readBit` returns the bit at the cursor and
advances by one; a read past the end is `OutOfBoundsError` (`none`). -/
def readBit (r : BitReader) : Option (Bool × BitReader) :=
  match r.buf[r.pos]? with
  | Option.some b => Option.some (b, ⟨r.buf, r.pos + 1⟩)
  | Option.none => Option.none

/-- Modelled from the spec: `readBits n` reads `n` bits into an unsigned
integer, advancing the cursor by exactly `n`. -/
def readBits : Nat → BitReader → Option (Nat × BitReader)
  | 0, r => Option.some (0, r)
  | Nat.succ n, r =>
      match readBit r with
      | Option.some (b, r1) =>
          match readBits n r1 with
          | Option.some (v, r2) =>
              Option.some (2 * v + (if b then 1 else 0), r2)
          | Option.none => Option.none
      | Option.none => Option.none

/-- Modelled from the spec: an actor-update record of a frame (spec
section 4.5, steps 3-5): new-actor, existing-actor property delta, or
deleted-actor. -/
inductive ActorUpdate where
  | spawn (actorId classId : Nat)
  | delta (actorId propertyId value : Nat)
  | despawn (actorId : Nat)
deriving DecidableEq

/-- Modelled from the spec: a Frame carries its delta-time, the keyframe
flag (recorded but not otherwise special), and its actor updates. -/
structure Frame where
  deltaTime : Nat
  keyframe : Bool
  updates : List ActorUpdate
deriving DecidableEq

/-- Modelled from the spec: a projected Event (spec section 4.6) carrying
the originating frame index and the actor involved. -/
structure Event where
  frameIndex : Nat
  actorId : Nat
deriving DecidableEq

/-- Modelled from the spec: the terminated actor-update list of one frame
(spec section 4.5, step 2): a continuation bit, then the actor id and an
update kind from two flag bits, then kind-specific payload.  Truncation
ends the list. -/
def readActorUpdates : Nat → BitReader → List ActorUpdate × BitReader
  | 0, r => ([], r)
  | Nat.succ fuel, r =>
      match readBit r with
      | Option.none => ([], r)
      | Option.some (more, r1) =>
          if more then
            match readBits 8 r1 with
            | Option.none => ([], r1)
            | Option.some (aid, r2) =>
                match readBits 2 r2 with
                | Option.none => ([], r2)
                | Option.some (kind, r3) =>
                    if kind = 0 then
                      match readBits 8 r3 with
                      | Option.none => ([], r3)
                      | Option.some (cid, r4) =>
                          let res := readActorUpdates fuel r4
                          (ActorUpdate.spawn aid cid :: res.1, res.2)
                    else if kind = 1 then
                      match readBits 8 r3 with
                      | Option.none => ([], r3)
                      | Option.some (pid, r4) =>
                          match readBits 8 r4 with
                          | Option.none => ([], r4)
                          | Option.some (pv, r5) =>
                              let res := readActorUpdates fuel r5
                              (ActorUpdate.delta aid pid pv :: res.1, res.2)
                    else
                      let res := readActorUpdates fuel r3
                      (ActorUpdate.despawn aid :: res.1, res.2)
          else ([], r1)

/-- Modelled from the spec: the frame loop (spec section 4.5): each frame
reads a delta-time, the keyframe flag and its update list; a truncated
frame stops emission but keeps the frames already produced. -/
def decodeFrames : Nat → BitReader → List Frame
  | 0, _ => []
  | Nat.succ fuel, r =>
      match readBits 32 r with
      | Option.none => []
      | Option.some (dt, r1) =>
          match readBit r1 with
          | Option.none => []
          | Option.some (kf, r2) =>
              let res := readActorUpdates fuel r2
              { deltaTime := dt, keyframe := kf, updates := res.1 } ::
                decodeFrames fuel res.2

/-- Modelled from the spec: the score property net id watched by the event
projector (spec section 4.6: a Score property increment implies a goal). -/
def SCORE_PROPERTY : Nat := 2

/-- Modelled from the spec: the event projector (spec section 4.6) is a
pure function of the frame sequence, emitting an event for every score
property delta, tagged with its frame index and actor. -/
def projectEvents (frames : List Frame) : List Event :=
  frames.enum.flatMap (fun fi =>
    fi.2.updates.flatMap (fun u =>
      match u with
      | ActorUpdate.delta aid pid _ =>
          if pid = SCORE_PROPERTY then [⟨fi.1, aid⟩] else []
      | _ => []))

/-- Modelled from the spec: one full decode pass over an immutable buffer
(spec sections 4.5-4.6 and section 5): frames are decoded from bit 0 with
fuel bounded by the buffer size, then events are projected from the frame
sequence. -/
def decode_replay (buf : List Bool) : List Frame × List Event :=
  let frames := decodeFrames (buf.length + 1) ⟨buf, 0⟩
  (frames, projectEvents frames)

/-- C7: decoding is deterministic — the decode pass is a pure function of
the immutable input buffer, so two runs over byte-for-byte identical
buffers produce identical Frame sequences and identical Event lists. -/
theorem decode_replay_deterministic (buf1 buf2 : List Bool) (h : buf1 = buf2) :
    (decode_replay buf1).1 = (decode_replay buf2).1 ∧
    (decode_replay buf1).2 = (decode_replay buf2).2 := by
  rw [h]
  exact ⟨rfl, rfl⟩

/-- Witness for `decode_replay_deterministic` on a concrete buffer: two
decode passes over the same bits agree. -/
theorem decode_replay_deterministic_witness :
    (decode_replay [true, false, true, true, false, false, true, false]).1 =
      (decode_replay [true, false, true, true, false, false, true, false]).1 ∧
    (decode_replay [true, false, true, true, false, false, true, false]).2 =
      (decode_replay [true, false, true, true, false, false, true, false]).2 :=
  decode_replay_deterministic
    [true, false, true, true, false, false, true, false]
    [true, false, true, true, false, false, true, false] rfl
